import Mathlib

/-!
# FarmConnect authorization & integrity model — verification

Shallow embedding of the row-level security policies and check constraints
of the FarmConnect marketplace schema (SQL migrations: `user_profiles`,
`products`, `orders`, `order_items`, `reviews`) together with the one
client-side query the claims reference (`loadProducts`).

Tables are lists of rows; `auth.uid()` is an explicit `actor` argument;
an SQL `EXISTS (SELECT 1 FROM t WHERE φ)` becomes `t.any (fun row => decide φ)`;
a `CHECK` constraint becomes a boolean predicate that every accepted write
must satisfy.  Policies for the same (table, command) combine with `||`
(PostgreSQL permissive-policy semantics).
-/

namespace FarmConnect

abbrev UserId := Nat
abbrev ProductId := Nat
abbrev OrderId := Nat

/-- `user_profiles.role` — `CHECK (role IN ('admin', 'farmer', 'buyer'))`:
the closed role enumeration. -/
inductive Role where
  | admin
  | farmer
  | buyer
deriving DecidableEq, Repr

/-- A `user_profiles` row (columns not consulted by any policy, check or
claim — phone, language, location, image, timestamps — are omitted). -/
structure UserProfile where
  id : UserId
  role : Role
  full_name : String
  is_active : Bool
deriving DecidableEq, Repr

/-- A `products` row (descriptive columns not consulted by any policy,
check or claim are omitted). -/
structure Product where
  id : ProductId
  farmer_id : UserId
  name : String
  price : Int
  stock_quantity : Int
  low_stock_threshold : Int
  is_active : Bool
deriving DecidableEq, Repr

/-- An `orders` row.  `status` and `payment_status` are `text` columns in
the schema, constrained only by `CHECK (... IN (...))`, so they are
`String` here with the enumeration expressed as a check predicate. -/
structure Order where
  id : OrderId
  buyer_id : UserId
  farmer_id : UserId
  total_amount : Int
  status : String
  payment_status : String
deriving DecidableEq, Repr

/-- An `order_items` row. -/
structure OrderItem where
  id : Nat
  order_id : OrderId
  product_id : ProductId
  quantity : Int
  unit_price : Int
  subtotal : Int
deriving DecidableEq, Repr

/-- A `reviews` row.  `order_id` is nullable (`uuid REFERENCES orders(id)
ON DELETE SET NULL`, no `NOT NULL`), hence `Option OrderId`. -/
structure Review where
  id : Nat
  product_id : ProductId
  buyer_id : UserId
  order_id : Option OrderId
  rating : Int
  comment : String
  is_verified_purchase : Bool
deriving DecidableEq, Repr

/-- The persisted store: one list per relation. -/
structure DB where
  user_profiles : List UserProfile
  products : List Product
  orders : List Order
  order_items : List OrderItem
  reviews : List Review
deriving DecidableEq, Repr

/-! ## `user_profiles` policies (migration 20251019084532) -/

/-- `EXISTS (SELECT 1 FROM user_profiles WHERE id = auth.uid() AND role = r)` —
the sub-select every role-gated policy uses. -/
def hasRole (db : DB) (actor : UserId) (r : Role) : Bool :=
  db.user_profiles.any (fun p => decide (p.id = actor) && decide (p.role = r))

/-- `(SELECT role FROM user_profiles WHERE id = auth.uid())` — the scalar
sub-select of the profile-update policy; `none` when no row matches
(SQL `NULL`, which fails the enclosing equality check). -/
def selectRoleOf (db : DB) (actor : UserId) : Option Role :=
  (db.user_profiles.find? (fun p => decide (p.id = actor))).map (fun p => p.role)

/-- Policy "Users can read own profile": `USING (auth.uid() = id)`. -/
def usersCanReadOwnProfile (actor : UserId) (row : UserProfile) : Bool :=
  decide (actor = row.id)

/-- Policy "Admins can read all profiles":
`USING (EXISTS (SELECT 1 FROM user_profiles WHERE id = auth.uid() AND role = 'admin'))`. -/
def adminsCanReadAllProfiles (db : DB) (actor : UserId) : Bool :=
  hasRole db actor Role.admin

/-- SELECT on `user_profiles`: the two permissive policies OR together. -/
def profileSelectAllowed (db : DB) (actor : UserId) (row : UserProfile) : Bool :=
  usersCanReadOwnProfile actor row || adminsCanReadAllProfiles db actor

/-- RLS read filtering: a broad SELECT returns exactly the rows whose
policy disjunction evaluates to true. -/
def profileVisibleRows (db : DB) (actor : UserId) : List UserProfile :=
  db.user_profiles.filter (fun row => profileSelectAllowed db actor row)

/-- Policy "Users can update own profile": `USING (auth.uid() = id)` on the
existing row and `WITH CHECK (auth.uid() = id AND role = (SELECT role FROM
user_profiles WHERE id = auth.uid()))` on the proposed row. -/
def usersCanUpdateOwnProfile (db : DB) (actor : UserId)
    (old new : UserProfile) : Bool :=
  decide (actor = old.id) &&
    (decide (actor = new.id) &&
      (match selectRoleOf db actor with
       | some r => decide (new.role = r)
       | none => false))

/-- Policy "Users can insert own profile": `WITH CHECK (auth.uid() = id)`. -/
def usersCanInsertOwnProfile (actor : UserId) (new : UserProfile) : Bool :=
  decide (actor = new.id)

/-- Primary-key well-formedness for `user_profiles`: no two rows share an id. -/
def profileIdsNodup (db : DB) : Prop :=
  (db.user_profiles.map (fun p => p.id)).Nodup

/-! ## `products` schema and policies (migration: products) -/

/-- `products` CHECK constraints:
`CHECK (price >= 0)` and `CHECK (stock_quantity >= 0)`. -/
def productChecks (p : Product) : Bool :=
  decide (0 ≤ p.price) && decide (0 ≤ p.stock_quantity)

/-- Policy "Farmers can read own products" (the only SELECT policy on
`products`): `USING (farmer_id = auth.uid() OR EXISTS (SELECT 1 FROM
user_profiles WHERE id = auth.uid() AND role IN ('admin', 'buyer')))`. -/
def farmersCanReadOwnProducts (db : DB) (actor : UserId) (row : Product) : Bool :=
  decide (row.farmer_id = actor) ||
    db.user_profiles.any (fun p =>
      decide (p.id = actor) &&
        (decide (p.role = Role.admin) || decide (p.role = Role.buyer)))

/-- RLS read filtering on `products`. -/
def productVisibleRows (db : DB) (actor : UserId) : List Product :=
  db.products.filter (fun row => farmersCanReadOwnProducts db actor row)

/-- Policy "Farmers can create own products": `WITH CHECK (farmer_id =
auth.uid() AND EXISTS (... role = 'farmer'))`. -/
def farmersCanCreateOwnProducts (db : DB) (actor : UserId) (new : Product) : Bool :=
  decide (new.farmer_id = actor) && hasRole db actor Role.farmer

/-- A product INSERT is committed iff the policy passes and the row
satisfies the table's CHECK constraints. -/
def productInsertAccepted (db : DB) (actor : UserId) (new : Product) : Bool :=
  farmersCanCreateOwnProducts db actor new && productChecks new

/-- Policy "Farmers can update own products": `USING (farmer_id =
auth.uid())` on the existing row, `WITH CHECK (farmer_id = auth.uid())` on
the proposed row. -/
def farmersCanUpdateOwnProducts (actor : UserId) (old new : Product) : Bool :=
  decide (old.farmer_id = actor) && decide (new.farmer_id = actor)

/-- A product UPDATE is committed iff the update policy passes and the
updated row still satisfies the table's CHECK constraints. -/
def productUpdateAccepted (actor : UserId) (old new : Product) : Bool :=
  farmersCanUpdateOwnProducts actor old new && productChecks new

/-- The client listing query `loadProducts` (Products page): a broad
SELECT, so RLS filtering applies, then the query's own filters
`.eq('is_active', true).gt('stock_quantity', 0)`. -/
def loadProducts (db : DB) (actor : UserId) : List Product :=
  (productVisibleRows db actor).filter
    (fun p => (p.is_active == true) && decide (0 < p.stock_quantity))

/-! ## `orders` schema and policies (migration: orders and reviews) -/

/-- `orders.status` enumeration:
`CHECK (status IN ('pending', 'confirmed', 'shipped', 'delivered', 'cancelled'))`. -/
def orderStatusEnum : List String :=
  ["pending", "confirmed", "shipped", "delivered", "cancelled"]

/-- `orders.payment_status` enumeration:
`CHECK (payment_status IN ('pending', 'completed', 'failed', 'refunded'))`. -/
def paymentStatusEnum : List String :=
  ["pending", "completed", "failed", "refunded"]

/-- `orders` CHECK constraints: `total_amount >= 0` plus the two
status enumerations. -/
def orderChecks (o : Order) : Bool :=
  decide (0 ≤ o.total_amount) &&
    decide (o.status ∈ orderStatusEnum) &&
    decide (o.payment_status ∈ paymentStatusEnum)

/-- SELECT on `orders`: the three permissive policies "Buyers can read own
orders" (`buyer_id = auth.uid()`), "Farmers can read their orders"
(`farmer_id = auth.uid()`) and "Admins can read all orders" OR together. -/
def orderSelectAllowed (db : DB) (actor : UserId) (row : Order) : Bool :=
  decide (row.buyer_id = actor) || decide (row.farmer_id = actor) ||
    hasRole db actor Role.admin

/-- Policy "Buyers can create orders": `WITH CHECK (buyer_id = auth.uid()
AND EXISTS (... role = 'buyer'))`. -/
def buyersCanCreateOrders (db : DB) (actor : UserId) (new : Order) : Bool :=
  decide (new.buyer_id = actor) && hasRole db actor Role.buyer

/-- An order INSERT is committed iff the policy passes and the row
satisfies the table's CHECK constraints. -/
def orderInsertAccepted (db : DB) (actor : UserId) (new : Order) : Bool :=
  buyersCanCreateOrders db actor new && orderChecks new

/-- Policy "Farmers can update their orders": `USING (farmer_id =
auth.uid())` on the existing row, `WITH CHECK (farmer_id = auth.uid())` on
the proposed row.  No column of the proposed row other than `farmer_id` is
constrained by the policy. -/
def farmersCanUpdateTheirOrders (actor : UserId) (old new : Order) : Bool :=
  decide (old.farmer_id = actor) && decide (new.farmer_id = actor)

/-- An order UPDATE is committed iff the update policy passes and the
updated row still satisfies the table's CHECK constraints. -/
def orderUpdateAccepted (actor : UserId) (old new : Order) : Bool :=
  farmersCanUpdateTheirOrders actor old new && orderChecks new

/-! ## `order_items` schema and policies -/

/-- `order_items` CHECK constraints: `quantity > 0`, `unit_price >= 0`,
`subtotal >= 0`. -/
def orderItemChecks (oi : OrderItem) : Bool :=
  decide (0 < oi.quantity) && decide (0 ≤ oi.unit_price) &&
    decide (0 ≤ oi.subtotal)

/-- Policy "Buyers can create order items": `WITH CHECK (EXISTS (SELECT 1
FROM orders WHERE orders.id = order_items.order_id AND orders.buyer_id =
auth.uid()))`. -/
def buyersCanCreateOrderItems (db : DB) (actor : UserId) (new : OrderItem) : Bool :=
  db.orders.any (fun o => decide (o.id = new.order_id) && decide (o.buyer_id = actor))

/-- An order-item INSERT is committed iff the policy passes and the row
satisfies the table's CHECK constraints. -/
def orderItemInsertAccepted (db : DB) (actor : UserId) (new : OrderItem) : Bool :=
  buyersCanCreateOrderItems db actor new && orderItemChecks new

/-! ## `reviews` schema and policies -/

/-- `reviews` CHECK constraint: `rating >= 1 AND rating <= 5`. -/
def reviewChecks (r : Review) : Bool :=
  decide (1 ≤ r.rating) && decide (r.rating ≤ 5)

/-- `UNIQUE(product_id, buyer_id, order_id)` under SQL semantics: two rows
conflict when every column of the key is equal, and a `NULL` `order_id`
is never equal to anything (two NULLs do not conflict). -/
def reviewUniqueConflict (existing : List Review) (new : Review) : Bool :=
  existing.any (fun r =>
    decide (r.product_id = new.product_id) &&
      decide (r.buyer_id = new.buyer_id) &&
      (match r.order_id, new.order_id with
       | some a, some b => decide (a = b)
       | _, _ => false))

/-- Policy "Buyers can create reviews for purchased products":
`WITH CHECK (buyer_id = auth.uid() AND EXISTS (... role = 'buyer') AND
EXISTS (SELECT 1 FROM order_items JOIN orders ON orders.id =
order_items.order_id WHERE order_items.product_id = reviews.product_id AND
orders.buyer_id = auth.uid() AND orders.status = 'delivered'))`. -/
def buyersCanCreateReviews (db : DB) (actor : UserId) (new : Review) : Bool :=
  decide (new.buyer_id = actor) &&
    hasRole db actor Role.buyer &&
    db.order_items.any (fun oi =>
      decide (oi.product_id = new.product_id) &&
        db.orders.any (fun o =>
          decide (o.id = oi.order_id) && decide (o.buyer_id = actor) &&
            decide (o.status = "delivered")))

/-- A review INSERT is committed iff the policy passes, the CHECK
constraint holds and the unique key is not violated. -/
def reviewInsertAccepted (db : DB) (actor : UserId) (new : Review) : Bool :=
  buyersCanCreateReviews db actor new && reviewChecks new &&
    !(reviewUniqueConflict db.reviews new)

/-- Committing a review INSERT: the new row is added when accepted,
otherwise the store is unchanged and the caller gets a rejection. -/
def insertReview (db : DB) (actor : UserId) (new : Review) : Option DB :=
  if reviewInsertAccepted db actor new then
    some { db with reviews := new :: db.reviews }
  else
    none

/-- Policy "Buyers can update own reviews": `USING (buyer_id = auth.uid())`
and `WITH CHECK (buyer_id = auth.uid())`. -/
def buyersCanUpdateOwnReviews (actor : UserId) (old new : Review) : Bool :=
  decide (old.buyer_id = actor) && decide (new.buyer_id = actor)

/-- A review UPDATE is committed iff the update policy passes and the
updated row still satisfies the table's CHECK constraint. -/
def reviewUpdateAccepted (actor : UserId) (old new : Review) : Bool :=
  buyersCanUpdateOwnReviews actor old new && reviewChecks new

/-! ## Client-side order placement

No order-placement code ships in the repository sources; only the SQL
policies and read-side dashboards do.  The model below follows the
specification, which states that the client computes each line item's
subtotal and the order total. -/

/-- One requested line item: a product, a quantity, and the unit price
taken from the product listing at the time of order. -/
structure OrderItemRequest where
  product_id : ProductId
  quantity : Int
  unit_price : Int
deriving DecidableEq, Repr

/-- Modelled from the spec: the client-side order-placement computation
(absent from the repository sources).  Per the specification, each
`order_items.subtotal` is computed as `quantity × unit_price` and the
order's `total_amount` as the sum of its items' subtotals. -/
def placeOrder (buyer farmer : UserId) (oid : OrderId)
    (reqs : List OrderItemRequest) : Order × List OrderItem :=
  let items := reqs.map (fun req =>
    { id := 0
      order_id := oid
      product_id := req.product_id
      quantity := req.quantity
      unit_price := req.unit_price
      subtotal := req.quantity * req.unit_price : OrderItem })
  let total := (items.map (fun it => it.subtotal)).sum
  ({ id := oid
     buyer_id := buyer
     farmer_id := farmer
     total_amount := total
     status := "pending"
     payment_status := "pending" : Order }, items)

/-! ## Concrete fixtures

A small populated store used by witnesses and counterexamples: an admin
(id 1), a farmer (id 2) owning one active and one inactive product, and a
buyer (id 3) with one delivered and one pending order from that farmer. -/

def adminP : UserProfile :=
  { id := 1, role := Role.admin, full_name := "Asha", is_active := true }

def farmerP : UserProfile :=
  { id := 2, role := Role.farmer, full_name := "Faru", is_active := true }

def buyerP : UserProfile :=
  { id := 3, role := Role.buyer, full_name := "Bina", is_active := true }

def activeProd : Product :=
  { id := 10, farmer_id := 2, name := "ghee", price := 50,
    stock_quantity := 8, low_stock_threshold := 10, is_active := true }

def inactiveProd : Product :=
  { id := 11, farmer_id := 2, name := "jam", price := 30,
    stock_quantity := 5, low_stock_threshold := 10, is_active := false }

def deliveredOrder : Order :=
  { id := 20, buyer_id := 3, farmer_id := 2, total_amount := 100,
    status := "delivered", payment_status := "completed" }

def pendingOrder : Order :=
  { id := 21, buyer_id := 3, farmer_id := 2, total_amount := 60,
    status := "pending", payment_status := "pending" }

def deliveredItem : OrderItem :=
  { id := 30, order_id := 20, product_id := 10, quantity := 2,
    unit_price := 50, subtotal := 100 }

def dbEx : DB :=
  { user_profiles := [adminP, farmerP, buyerP]
    products := [activeProd, inactiveProd]
    orders := [deliveredOrder, pendingOrder]
    order_items := [deliveredItem]
    reviews := [] }

/-- A review of the purchased product 10 by buyer 3, tied to the delivered
order 20. -/
def rev1o : Review :=
  { id := 70, product_id := 10, buyer_id := 3, order_id := some 20,
    rating := 5, comment := "good", is_verified_purchase := true }

/-- A second review with the same (product, buyer, order) key. -/
def rev2o : Review :=
  { rev1o with id := 71, comment := "again" }

/-- The store after `rev1o` is committed. -/
def dbO1 : DB := { dbEx with reviews := [rev1o] }

/-- A review of product 10 by buyer 3 with no order reference. -/
def rev1n : Review :=
  { id := 60, product_id := 10, buyer_id := 3, order_id := none,
    rating := 5, comment := "first", is_verified_purchase := false }

/-- A second order-less review by the same buyer for the same product. -/
def rev2n : Review :=
  { rev1n with id := 61, comment := "second" }

/-- The store after `rev1n` is committed. -/
def dbN1 : DB := { dbEx with reviews := [rev1n] }

/-- A review with no qualifying delivered purchase (product 99 was never
ordered). -/
def revNoPurchase : Review :=
  { id := 80, product_id := 99, buyer_id := 3, order_id := none,
    rating := 5, comment := "", is_verified_purchase := false }

/-- A review used as the base row when varying the order reference. -/
def revBase : Review :=
  { id := 50, product_id := 10, buyer_id := 3, order_id := none,
    rating := 4, comment := "", is_verified_purchase := false }

/-- The §8 scenario line item: quantity 2 at unit price 50. -/
def scenarioReq : OrderItemRequest :=
  { product_id := 10, quantity := 2, unit_price := 50 }

/-- The order item `placeOrder` builds for `scenarioReq` under order 777. -/
def scenarioItem : OrderItem :=
  { id := 0, order_id := 777, product_id := 10, quantity := 2,
    unit_price := 50, subtotal := 100 }

/-! ## Helper lemmas -/

theorem find?_id_mem (l : List UserProfile) (p : UserProfile)
    (hnd : (l.map (fun q => q.id)).Nodup) (hmem : p ∈ l) :
    l.find? (fun q => decide (q.id = p.id)) = some p := by
  induction l with
  | nil => cases hmem
  | cons q rest ih =>
    simp only [List.map_cons, List.nodup_cons, List.mem_map] at hnd
    rcases List.mem_cons.mp hmem with hq | hrest
    · subst hq
      simp [List.find?]
    · by_cases hqp : q.id = p.id
      · exact absurd ⟨p, hrest, hqp.symm⟩ hnd.1
      · have hdec : (decide (q.id = p.id)) = false := by
          simp [hqp]
        simp only [List.find?, hdec]
        exact ih hnd.2 hrest

theorem selectRoleOf_mem (db : DB) (p : UserProfile)
    (hnd : profileIdsNodup db) (hmem : p ∈ db.user_profiles) :
    selectRoleOf db p.id = some p.role := by
  unfold selectRoleOf
  rw [find?_id_mem db.user_profiles p hnd hmem]
  rfl

/-- Unfolding `hasRole` into an existential over the profile table. -/
theorem hasRole_iff (db : DB) (actor : UserId) (r : Role) :
    hasRole db actor r = true ↔
      ∃ p ∈ db.user_profiles, p.id = actor ∧ p.role = r := by
  simp [hasRole, List.any_eq_true]

/-- Unfolding the review-insert policy into the spec's three conditions. -/
theorem buyersCanCreateReviews_iff (db : DB) (actor : UserId) (new : Review) :
    buyersCanCreateReviews db actor new = true ↔
      (new.buyer_id = actor ∧
        (∃ p ∈ db.user_profiles, p.id = actor ∧ p.role = Role.buyer) ∧
        (∃ oi ∈ db.order_items, oi.product_id = new.product_id ∧
          ∃ o ∈ db.orders, o.id = oi.order_id ∧ o.buyer_id = actor ∧
            o.status = "delivered")) := by
  simp [buyersCanCreateReviews, hasRole, List.any_eq_true, and_assoc]

/-- A review whose `order_id` is NULL can never violate the unique key:
SQL equality with NULL is not a match. -/
theorem reviewUniqueConflict_none (l : List Review) (r : Review)
    (h : r.order_id = none) : reviewUniqueConflict l r = false := by
  induction l with
  | nil => rfl
  | cons q rest ih =>
    simp only [reviewUniqueConflict, List.any_cons, Bool.or_eq_false_iff] at ih ⊢
    refine ⟨?_, ih⟩
    rw [h]
    cases q.order_id <;> simp

/-! ## Claim theorems -/

/-- C1: for every account and every update issued through the
"Users can update own profile" policy — the ordinary update path, whose
`USING` clause restricts it to the row's own owner — the update is allowed
only if the proposed role equals the current role, so role is immutable
after creation through this path. -/
theorem role_immutable_via_self_update (db : DB) (actor : UserId)
    (old new : UserProfile) (hnd : profileIdsNodup db)
    (hmem : old ∈ db.user_profiles)
    (hallow : usersCanUpdateOwnProfile db actor old new = true) :
    new.role = old.role := by
  unfold usersCanUpdateOwnProfile at hallow
  rw [Bool.and_eq_true] at hallow
  obtain ⟨ha, hbm⟩ := hallow
  rw [Bool.and_eq_true] at hbm
  obtain ⟨-, hm⟩ := hbm
  have haeq : actor = old.id := of_decide_eq_true ha
  subst haeq
  have hsel := selectRoleOf_mem db old hnd hmem
  rw [hsel] at hm
  exact of_decide_eq_true hm

/-- C1 witness: buyer 3 updating its own profile's name (role unchanged)
is allowed, and the theorem yields that the proposed role equals the
current one. -/
theorem role_immutable_witness :
    usersCanUpdateOwnProfile dbEx 3 buyerP
        { buyerP with full_name := "Bina K" } = true ∧
      ({ buyerP with full_name := "Bina K" } : UserProfile).role =
        buyerP.role :=
  ⟨by decide,
   role_immutable_via_self_update dbEx 3 buyerP
     { buyerP with full_name := "Bina K" }
     (by unfold profileIdsNodup; decide) (by decide) (by decide)⟩

/-- C2: a review insert passes the "Buyers can create reviews for
purchased products" policy iff the actor is the proposed `buyer_id`, the
actor has a buyer-role profile, and some order item for that product sits
on an order owned by the actor with status `delivered`; when no such
delivered order item exists, the insert is denied. -/
theorem review_insert_gate_iff (db : DB) (actor : UserId) (new : Review) :
    (buyersCanCreateReviews db actor new = true ↔
      (new.buyer_id = actor ∧
        (∃ p ∈ db.user_profiles, p.id = actor ∧ p.role = Role.buyer) ∧
        (∃ oi ∈ db.order_items, oi.product_id = new.product_id ∧
          ∃ o ∈ db.orders, o.id = oi.order_id ∧ o.buyer_id = actor ∧
            o.status = "delivered"))) ∧
    ((¬ ∃ oi ∈ db.order_items, oi.product_id = new.product_id ∧
          ∃ o ∈ db.orders, o.id = oi.order_id ∧ o.buyer_id = actor ∧
            o.status = "delivered") →
      reviewInsertAccepted db actor new = false) := by
  refine ⟨buyersCanCreateReviews_iff db actor new, ?_⟩
  intro hno
  cases hpol : buyersCanCreateReviews db actor new with
  | false => simp [reviewInsertAccepted, hpol]
  | true =>
    exact absurd ((buyersCanCreateReviews_iff db actor new).mp hpol).2.2 hno

/-- C2 witness: buyer 3 never purchased product 99, so its review insert
for product 99 is rejected. -/
theorem review_insert_gate_witness :
    reviewInsertAccepted dbEx 3 revNoPurchase = false :=
  (review_insert_gate_iff dbEx 3 revNoPurchase).2 (by decide)

/-- C9: the delivered-purchase gate never inspects the proposed review's
own `order_id` — its `EXISTS` clause only correlates on `product_id` and
the actor — so the policy outcome is unchanged under any order reference,
and once any delivered order of the buyer contains the product, the insert
is allowed with an absent or arbitrary (even undelivered) order
reference. -/
theorem review_gate_ignores_order_reference (db : DB) (actor : UserId)
    (r : Review) (oid : Option OrderId) :
    (buyersCanCreateReviews db actor { r with order_id := oid } =
        buyersCanCreateReviews db actor r) ∧
    (r.buyer_id = actor →
      (∃ p ∈ db.user_profiles, p.id = actor ∧ p.role = Role.buyer) →
      (∃ oi ∈ db.order_items, oi.product_id = r.product_id ∧
        ∃ o ∈ db.orders, o.id = oi.order_id ∧ o.buyer_id = actor ∧
          o.status = "delivered") →
      buyersCanCreateReviews db actor { r with order_id := oid } = true) := by
  constructor
  · rfl
  · intro h1 h2 h3
    exact (buyersCanCreateReviews_iff db actor _).mpr ⟨h1, h2, h3⟩

/-- C9 witness: buyer 3 has a delivered order (20) containing product 10,
so its review of product 10 passes the gate both with no order reference
and naming the still-pending order 21. -/
theorem review_gate_order_reference_witness :
    buyersCanCreateReviews dbEx 3 { revBase with order_id := some 21 } = true ∧
    buyersCanCreateReviews dbEx 3 { revBase with order_id := none } = true ∧
    pendingOrder.id = 21 ∧ pendingOrder.status = "pending" :=
  ⟨(review_gate_ignores_order_reference dbEx 3 revBase (some 21)).2
     (by decide) (by decide) (by decide),
   (review_gate_ignores_order_reference dbEx 3 revBase none).2
     (by decide) (by decide) (by decide),
   by decide, by decide⟩

/-- C3 counterexample: the "Farmers can update their orders" policy lets
the owning farmer (id 2) move an order whose status is `delivered` — a
terminal state per the claim — back to `pending`, and the row still
passes every CHECK constraint, so the update is accepted. -/
theorem order_terminal_status_counterexample :
    deliveredOrder.status = "delivered" ∧
    ({ deliveredOrder with status := "pending" } : Order).status = "pending" ∧
    orderUpdateAccepted 2 deliveredOrder
      { deliveredOrder with status := "pending" } = true := by
  decide

/-- C3 (amended): an order update is accepted iff the acting farmer owns
the row (old and new `farmer_id` both equal the actor) and the proposed
row passes the CHECK constraints — `total_amount ≥ 0` and both statuses in
their closed enumerations.  The decision never reads the old status, so
any status in the enumeration is reachable from any other; delivered and
cancelled are not terminal. -/
theorem order_update_no_transition_restriction (actor : UserId)
    (old new : Order) :
    orderUpdateAccepted actor old new = true ↔
      (old.farmer_id = actor ∧ new.farmer_id = actor ∧
        0 ≤ new.total_amount ∧ new.status ∈ orderStatusEnum ∧
        new.payment_status ∈ paymentStatusEnum) := by
  simp [orderUpdateAccepted, farmersCanUpdateTheirOrders, orderChecks,
    and_assoc]

/-- C4: the only SELECT policy on `products` grants any buyer-role actor
visibility of every row — it has no `is_active` condition — so buyer 3
reads the inactive product 11; the farmer owner (2) and the admin (1)
read it too, and only the client listing query `loadProducts` filters it
out. -/
theorem buyer_reads_inactive_product :
    inactiveProd.is_active = false ∧
    buyerP ∈ dbEx.user_profiles ∧ buyerP.id = 3 ∧
    buyerP.role = Role.buyer ∧
    inactiveProd ∈ productVisibleRows dbEx 3 ∧
    inactiveProd ∈ productVisibleRows dbEx 2 ∧
    inactiveProd ∈ productVisibleRows dbEx 1 ∧
    inactiveProd ∉ loadProducts dbEx 3 := by
  decide

/-- C7: a `user_profiles` row is readable iff the actor is the row's
owner or the actor has an admin-role profile; consequently a broad read by
an admin returns every row, while a read by a non-admin returns exactly
the actor's own row(s). -/
theorem profile_read_owner_or_admin (db : DB) (actor : UserId) :
    (∀ row : UserProfile, profileSelectAllowed db actor row = true ↔
      (actor = row.id ∨
        ∃ p ∈ db.user_profiles, p.id = actor ∧ p.role = Role.admin)) ∧
    ((∃ p ∈ db.user_profiles, p.id = actor ∧ p.role = Role.admin) →
      profileVisibleRows db actor = db.user_profiles) ∧
    ((¬ ∃ p ∈ db.user_profiles, p.id = actor ∧ p.role = Role.admin) →
      profileVisibleRows db actor =
        db.user_profiles.filter (fun row => decide (actor = row.id))) := by
  refine ⟨?_, ?_, ?_⟩
  · intro row
    simp [profileSelectAllowed, usersCanReadOwnProfile,
      adminsCanReadAllProfiles, hasRole, List.any_eq_true]
  · intro hadmin
    have hb : adminsCanReadAllProfiles db actor = true := by
      simpa [adminsCanReadAllProfiles, hasRole, List.any_eq_true]
        using hadmin
    unfold profileVisibleRows
    refine List.filter_eq_self.mpr ?_
    intro a _
    simp [profileSelectAllowed, hb]
  · intro hno
    have hb : adminsCanReadAllProfiles db actor = false := by
      cases h : adminsCanReadAllProfiles db actor with
      | false => rfl
      | true =>
        exact absurd
          (by simpa [adminsCanReadAllProfiles, hasRole, List.any_eq_true]
            using h) hno
    unfold profileVisibleRows
    refine List.filter_congr ?_
    intro a _
    simp [profileSelectAllowed, usersCanReadOwnProfile, hb]

/-- C7 witness: in the fixture store, admin 1's broad read returns all
three profiles, while buyer 3's broad read returns only its own row. -/
theorem profile_read_witness :
    profileVisibleRows dbEx 1 = dbEx.user_profiles ∧
    profileVisibleRows dbEx 3 = [buyerP] := by
  have h1 := (profile_read_owner_or_admin dbEx 1).2.1 (by decide)
  have h2 := (profile_read_owner_or_admin dbEx 3).2.2 (by decide)
  rw [h2]
  exact ⟨h1, by decide⟩

/-- C5: after a review with a non-null order reference is committed, a
second insert by the same buyer for the same product and the same order
violates `UNIQUE(product_id, buyer_id, order_id)` and is rejected. -/
theorem review_unique_per_order (db db2 : DB) (a1 a2 : UserId)
    (r1 r2 : Review) (o : OrderId)
    (hins : insertReview db a1 r1 = some db2)
    (h1o : r1.order_id = some o)
    (hp : r2.product_id = r1.product_id)
    (hb : r2.buyer_id = r1.buyer_id)
    (h2o : r2.order_id = some o) :
    insertReview db2 a2 r2 = none := by
  unfold insertReview at hins
  split at hins
  · injection hins with hdb2
    subst hdb2
    have hconf : reviewUniqueConflict (r1 :: db.reviews) r2 = true := by
      simp [reviewUniqueConflict, List.any_cons, h1o, h2o, hp, hb]
    have hrej :
        reviewInsertAccepted { db with reviews := r1 :: db.reviews } a2 r2 =
          false := by
      unfold reviewInsertAccepted
      simp [hconf]
    simp [insertReview, hrej]
  · exact Option.noConfusion hins

/-- C5 witness: buyer 3's review of product 10 on delivered order 20 is
committed once; an identical (product, buyer, order) review is then
rejected. -/
theorem review_unique_witness :
    insertReview dbEx 3 rev1o = some dbO1 ∧
    insertReview dbO1 3 rev2o = none :=
  ⟨by decide,
   review_unique_per_order dbEx dbO1 3 3 rev1o rev2o 20 (by decide)
     rfl rfl rfl rfl⟩

/-- C6: the order-placement computation gives every line item a subtotal
equal to `quantity × unit_price` and gives the order a `total_amount`
equal to the sum of its items' subtotals. -/
theorem order_totals (buyer farmer : UserId) (oid : OrderId)
    (reqs : List OrderItemRequest) :
    (∀ it ∈ (placeOrder buyer farmer oid reqs).2,
      it.subtotal = it.quantity * it.unit_price) ∧
    (placeOrder buyer farmer oid reqs).1.total_amount =
      ((placeOrder buyer farmer oid reqs).2.map
        (fun it => it.subtotal)).sum := by
  constructor
  · intro it hit
    simp only [placeOrder, List.mem_map] at hit
    obtain ⟨req, -, rfl⟩ := hit
    rfl
  · rfl

/-- C6 witness: the §8 scenario — quantity 2 at unit price 50 — yields the
line item with subtotal 100 = 2 × 50 and an order total of 100. -/
theorem order_totals_witness :
    scenarioItem ∈ (placeOrder 3 2 777 [scenarioReq]).2 ∧
    scenarioItem.subtotal = scenarioItem.quantity * scenarioItem.unit_price ∧
    (placeOrder 3 2 777 [scenarioReq]).1.total_amount = 100 :=
  ⟨by decide,
   (order_totals 3 2 777 [scenarioReq]).1 scenarioItem (by decide),
   by decide⟩

/-- C8: whatever the acting identity, every accepted write — insert or
update, on every table that has CHECK constraints — satisfies them:
product price and stock non-negative (insert and update); order total
non-negative with status and payment status in their closed enumerations
(insert and update); order-item quantity positive with unit price and
subtotal non-negative; review rating in [1, 5] (insert and update). -/
theorem integrity_checks_on_accepted_writes (db : DB) (actor : UserId) :
    (∀ p : Product, productInsertAccepted db actor p = true →
      0 ≤ p.price ∧ 0 ≤ p.stock_quantity) ∧
    (∀ old p : Product, productUpdateAccepted actor old p = true →
      0 ≤ p.price ∧ 0 ≤ p.stock_quantity) ∧
    (∀ o : Order, orderInsertAccepted db actor o = true →
      0 ≤ o.total_amount ∧ o.status ∈ orderStatusEnum ∧
        o.payment_status ∈ paymentStatusEnum) ∧
    (∀ old o : Order, orderUpdateAccepted actor old o = true →
      0 ≤ o.total_amount ∧ o.status ∈ orderStatusEnum ∧
        o.payment_status ∈ paymentStatusEnum) ∧
    (∀ oi : OrderItem, orderItemInsertAccepted db actor oi = true →
      0 < oi.quantity ∧ 0 ≤ oi.unit_price ∧ 0 ≤ oi.subtotal) ∧
    (∀ r : Review, reviewInsertAccepted db actor r = true →
      1 ≤ r.rating ∧ r.rating ≤ 5) ∧
    (∀ old r : Review, reviewUpdateAccepted actor old r = true →
      1 ≤ r.rating ∧ r.rating ≤ 5) := by
  refine ⟨?_, ?_, ?_, ?_, ?_, ?_, ?_⟩
  · intro p h
    simp only [productInsertAccepted, productChecks, Bool.and_eq_true,
      decide_eq_true_eq] at h
    tauto
  · intro old p h
    simp only [productUpdateAccepted, productChecks, Bool.and_eq_true,
      decide_eq_true_eq] at h
    tauto
  · intro o h
    simp only [orderInsertAccepted, orderChecks, Bool.and_eq_true,
      decide_eq_true_eq] at h
    tauto
  · intro old o h
    simp only [orderUpdateAccepted, orderChecks, Bool.and_eq_true,
      decide_eq_true_eq] at h
    tauto
  · intro oi h
    simp only [orderItemInsertAccepted, orderItemChecks, Bool.and_eq_true,
      decide_eq_true_eq] at h
    tauto
  · intro r h
    simp only [reviewInsertAccepted, reviewChecks, Bool.and_eq_true,
      decide_eq_true_eq] at h
    tauto
  · intro old r h
    simp only [reviewUpdateAccepted, reviewChecks, Bool.and_eq_true,
      decide_eq_true_eq] at h
    tauto

/-- C8 witness: farmer 2's insert of the active product and its
price-changing update are both accepted, and the theorem yields the
non-negative price and stock of each committed row. -/
theorem integrity_checks_witness :
    productInsertAccepted dbEx 2 activeProd = true ∧
    (0 ≤ activeProd.price ∧ 0 ≤ activeProd.stock_quantity) ∧
    productUpdateAccepted 2 activeProd { activeProd with price := 60 } = true ∧
    (0 ≤ ({ activeProd with price := 60 } : Product).price ∧
      0 ≤ ({ activeProd with price := 60 } : Product).stock_quantity) :=
  ⟨by decide,
   (integrity_checks_on_accepted_writes dbEx 2).1 activeProd (by decide),
   by decide,
   (integrity_checks_on_accepted_writes dbEx 2).2.1 activeProd
     { activeProd with price := 60 } (by decide)⟩

/-- C10: the unique key never fires on reviews whose order reference is
absent — SQL NULLs do not conflict — so after one order-less review by a
buyer for a product is committed, a second order-less review by the same
buyer for the same product is accepted too. -/
theorem null_order_reviews_both_accepted (db db2 : DB) (a1 a2 : UserId)
    (r1 r2 : Review)
    (_h1 : r1.order_id = none) (h2 : r2.order_id = none)
    (_hp : r2.product_id = r1.product_id)
    (_hb : r2.buyer_id = r1.buyer_id)
    (_hins : insertReview db a1 r1 = some db2)
    (hpol : buyersCanCreateReviews db2 a2 r2 = true)
    (hchk : reviewChecks r2 = true) :
    insertReview db2 a2 r2 = some { db2 with reviews := r2 :: db2.reviews } := by
  have hacc : reviewInsertAccepted db2 a2 r2 = true := by
    unfold reviewInsertAccepted
    rw [hpol, hchk, reviewUniqueConflict_none db2.reviews r2 h2]
    rfl
  simp [insertReview, hacc]

/-- C10 witness: buyer 3 reviews product 10 twice with no order
reference; both inserts are committed. -/
theorem null_order_reviews_witness :
    insertReview dbEx 3 rev1n = some dbN1 ∧
    insertReview dbN1 3 rev2n =
      some { dbN1 with reviews := rev2n :: dbN1.reviews } :=
  ⟨by decide,
   null_order_reviews_both_accepted dbEx dbN1 3 3 rev1n rev2n
     rfl rfl rfl rfl (by decide) (by decide) (by decide)⟩

end FarmConnect
